import Mathlib

/-!
Verification development for the ppath privilege-aware filesystem mutation
library (`src/src/ppath/__init__.py`).

The embedding models an absolute POSIX path as its list of components below
the filesystem root (`[] = "/"`, `["a","b"] = "/a/b"`).  The operating-system
boundary (uid lookup, `os.access`, `os.path.exists`, `os.stat`, symlink
resolution, the `which` lookup for the escalation mechanism, and the
`subprocess.run` execution primitive) is modelled as a record of oracle
functions describing an immutable snapshot of the system at call time; the
library's own logic — the sudo ancestor walk, the access probe, the
`file_in_parents` walk, and the argv synthesis of `chmod`/`chown`/`mkdir`/
`touch`/`rm` — is translated function by function from the source.  Each
operation returns, besides its result, the list of external commands it
submitted to `subprocess.run`, together with the `check` flag it passed.
-/

/-- An absolute path as its components below the root directory. -/
abbrev Ppath := List String

/-- Render a path the way `str(pathlib.Path)` renders an absolute path. -/
def pstr (p : Ppath) : String :=
  "/" ++ String.intercalate "/" p

/-- Snapshot of the operating-system state and primitives that
`ppath.Path` methods consult: identity (`os.getuid` / `os.geteuid`),
the memoized `which("sudo")` lookup (`""` when no escalation mechanism is
installed), the filesystem predicates (`os.path.exists` follows symlinks;
`is_symlink`, `is_dir`, `is_file`, `os.access`), symlink resolution
(`Path.resolve`), `os.stat` fields, the identity of `Passwd.from_login()`,
and the exit code / captured output that `subprocess.run` would report for
a given argv. -/
structure OS where
  getuid : Nat
  geteuid : Nat
  whichSudo : String
  osExists : Ppath → Bool
  isSymlink : Ppath → Bool
  isDir : Ppath → Bool
  isFile : Ppath → Bool
  osAccess : Ppath → Nat → Bool → Bool → Bool
  resolve : Ppath → Ppath
  stMode : Ppath → Nat
  stUid : Ppath → Nat
  stGid : Ppath → Nat
  runExit : List String → Int
  runOut : List String → String
  runErr : List String → String
  loginUser : String
  loginGroup : String

/-- `os.W_OK`, the default `os_mode` of `Path.access` and `Path.sudo`. -/
def wOK : Nat := 2

/-- `Path.exists`: true when the OS existence check succeeds or the path is
a (possibly broken) symbolic link.  Source: `if super().exists(): return
True; return self.is_symlink()`. -/
def pathExists (os : OS) (p : Ppath) : Bool :=
  os.osExists p || os.isSymlink p

/-- `Path.access`: `none` when `self.exists()` is false, otherwise the
result of the `os.access` syscall.  Source: `if not self.exists(): return
None; return os.access(self, mode=os_mode, ...)`. -/
def pathAccess (os : OS) (p : Ppath) (osMode : Nat) (effectiveIds followSymlinks : Bool) :
    Option Bool :=
  if pathExists os p then some (os.osAccess p osMode effectiveIds followSymlinks) else none

/-- The `while path:` ancestor walk inside `Path.sudo`, with explicit fuel
bounding the number of loop iterations (for `followSymlinks = false` the
walk strictly shortens the path each iteration, so `p.length + 1` fuel —
what `pathSudo` supplies — always suffices; the fuel-exhausted branch
returns the loop's current `rv`, which is the installed mechanism's path).
One iteration: if `path.access(...)` is truthy, return `""` unless `force`;
otherwise if `path.exists()`, stop with the escalation prefix; otherwise
step to the parent (resolved when following symlinks) and stop with the
escalation prefix when the parent renders as `"/"`. -/
def sudoGo (os : OS) (force : Bool) (osMode : Nat) (effectiveIds followSymlinks : Bool) :
    Nat → Ppath → String
  | 0, _ => os.whichSudo
  | fuel + 1, path =>
    match pathAccess os path osMode effectiveIds followSymlinks with
    | some true => if force then os.whichSudo else ""
    | _ =>
      if pathExists os path then os.whichSudo
      else
        let q := if followSymlinks then os.resolve path.dropLast else path.dropLast
        if pstr q = "/" then os.whichSudo
        else sudoGo os force osMode effectiveIds followSymlinks fuel q

/-- `Path.sudo` with `to_list=True`: the escalation prefix for a mutation on
`p`.  Source: `if (rv := which()) and (os.geteuid if effective_ids else
os.getuid)() != 0:` run the ancestor walk; finally `return [rv] if rv else
[]`. -/
def pathSudo (os : OS) (p : Ppath) (force : Bool) (osMode : Nat)
    (effectiveIds followSymlinks : Bool) : List String :=
  let rv0 := os.whichSudo
  let rv :=
    if rv0 ≠ "" ∧ (if effectiveIds then os.geteuid else os.getuid) ≠ 0 then
      sudoGo os force osMode effectiveIds followSymlinks (p.length + 1) p
    else rv0
  if rv ≠ "" then [rv] else []

/-- Error taxonomy of the engine: the exceptions `Path` methods raise
locally (`FileNotFoundError`, `NotADirectoryError`, `ValueError`) and the
patched `subprocess.CalledProcessError` raised by a checked run, carrying
the exit code and the captured stdout/stderr. -/
inductive PErr where
  | fileNotFoundError
  | notADirectoryError
  | valueError
  | calledProcessError (returncode : Int) (stdout stderr : String)
  deriving Repr, DecidableEq

/-- One `subprocess.run` invocation: the argv submitted and whether
`check=True` was passed. -/
structure Cmd where
  argv : List String
  check : Bool
  deriving Repr, DecidableEq

/-- `subprocess.run` semantics against the snapshot: raises
`CalledProcessError` exactly when `check` is set and the exit code is
non-zero; otherwise the result is ignored by every caller in the source. -/
def runCmd (os : OS) (c : Cmd) : Except PErr Unit :=
  if c.check ∧ os.runExit c.argv ≠ 0 then
    .error (.calledProcessError (os.runExit c.argv) (os.runOut c.argv) (os.runErr c.argv))
  else .ok ()

/-- The `while True:` walk of `Path.file_in_parents`, fuel-bounded like
`sudoGo` (`p.length + 1` suffices when not following symlinks).  One
iteration: a regular file raises `NotADirectoryError` (or is returned when
`exception` is off); a directory stops the walk with no finding; otherwise
step to the parent and stop when the parent is the root path. -/
def fipGo (os : OS) (exception followSymlinks : Bool) :
    Nat → Ppath → Except PErr (Option Ppath)
  | 0, _ => .ok none
  | fuel + 1, path =>
    if os.isFile path then
      if exception then .error .notADirectoryError else .ok (some path)
    else if os.isDir path then .ok none
    else
      let q := if followSymlinks then os.resolve path.dropLast else path.dropLast
      if q = ([] : Ppath) then .ok none
      else fipGo os exception followSymlinks fuel q

/-- `Path.file_in_parents`: walk up from `p` until a regular file or a
directory is found. -/
def fileInParents (os : OS) (p : Ppath) (exception followSymlinks : Bool) :
    Except PErr (Option Ppath) :=
  let p0 := if followSymlinks then os.resolve p else p
  fipGo os exception followSymlinks (p0.length + 1) p0

/-- The `mode` argument accepted by `Path.chmod` (and forwarded by `touch`
and `mkdir`): a numeric mode or a symbolic `chmod` expression. -/
inductive ChmodArg where
  | num (n : Nat)
  | sym (s : String)
  deriving Repr, DecidableEq

/-- Python truthiness of a `mode` argument (`0` and `""` are falsy). -/
def chmodArgTruthy : ChmodArg → Bool
  | .num n => n ≠ 0
  | .sym s => s ≠ ""

/-- `str(mode)` for a `mode` argument. -/
def chmodArgRepr : ChmodArg → String
  | .num n => toString n
  | .sym s => s

/-- The mode token `Path.chmod` puts in its argv:
`str(mode or (755 if self.is_dir() else 644))`. -/
def chmodTok (isDir : Bool) : Option ChmodArg → String
  | some m => if chmodArgTruthy m then chmodArgRepr m else if isDir then "755" else "644"
  | none => if isDir then "755" else "644"

/-- The `passwd` argument accepted by `Path.chown` / `mkdir` / `touch`:
either a `Passwd` record (modelled by its rendered user and group names) or
a raw `"user:group"` string. -/
inductive PasswdArg where
  | pw (user group : String)
  | raw (s : String)
  deriving Repr, DecidableEq

/-- The owner token `Path.chown` puts in its argv:
`f"{passwd.user}:{passwd.group}"` for a `Passwd`, the raw string otherwise,
with `None` defaulted to `Passwd.from_login()`. -/
def chownOwnTok (os : OS) : Option PasswdArg → String
  | some (.pw u g) => u ++ ":" ++ g
  | some (.raw s) => s
  | none => os.loginUser ++ ":" ++ os.loginGroup

/-- The argv `Path.chown` submits:
`[*self.sudo(force=True, ...), 'chown', *(["-R"] if recursive and
self.is_dir() else []), owner, self.resolve() if follow_symlinks else
self]`. -/
def chownArgv (os : OS) (p : Ppath) (passwd : Option PasswdArg)
    (effectiveIds followSymlinks recursive : Bool) : List String :=
  pathSudo os p true wOK effectiveIds followSymlinks ++ ["chown"]
    ++ (if recursive ∧ os.isDir p then ["-R"] else [])
    ++ [chownOwnTok os passwd]
    ++ [pstr (if followSymlinks then os.resolve p else p)]

/-- `Path.chown`: raises `FileNotFoundError` when `exception` is set and the
path does not exist, `ValueError` for a raw string without `":"`, then runs
the chown command with `check=True`. -/
def pathChown (os : OS) (p : Ppath) (passwd : Option PasswdArg)
    (effectiveIds exception followSymlinks recursive : Bool) :
    Except PErr (Ppath × List Cmd) :=
  if exception ∧ ¬ pathExists os p then .error .fileNotFoundError
  else if (match passwd with
           | some (.raw s) => !(s.contains ':')
           | _ => false) = true then .error .valueError
  else
    let c : Cmd := { argv := chownArgv os p passwd effectiveIds followSymlinks recursive,
                     check := true }
    match runCmd os c with
    | .error e => .error e
    | .ok _ => .ok (p, [c])

/-- `Path.chmod`: raises `FileNotFoundError` when `exception` is set and the
path does not exist, then runs the chmod command with no `check` (a
non-zero exit is ignored). -/
def pathChmod (os : OS) (p : Ppath) (mode : Option ChmodArg)
    (effectiveIds exception followSymlinks recursive : Bool) :
    Except PErr (Ppath × List Cmd) :=
  if exception ∧ ¬ pathExists os p then .error .fileNotFoundError
  else
    let c : Cmd := { argv := pathSudo os p true wOK effectiveIds followSymlinks ++ ["chmod"]
      ++ (if recursive ∧ os.isDir p then ["-R"] else [])
      ++ [chmodTok (os.isDir p) mode]
      ++ [pstr (if followSymlinks then os.resolve p else p)], check := false }
    match runCmd os c with
    | .error e => .error e
    | .ok _ => .ok (p, [c])

/-- Split a character list at `'/'` separators, accumulating the current
component in reverse. -/
def splitSlashGo : List Char → List Char → List String
  | [], acc => [String.mk acc.reverse]
  | c :: cs, acc =>
    if c = '/' then String.mk acc.reverse :: splitSlashGo cs []
    else splitSlashGo cs (c :: acc)

/-- `self / str(name)`: join a (possibly multi-component, possibly empty)
name onto a path the way `pathlib` does, dropping empty components. -/
def joinName (p : Ppath) (name : String) : Ppath :=
  p ++ ((splitSlashGo name.toList []).filter (· ≠ ""))

instance {ε α : Type} [DecidableEq ε] [DecidableEq α] : DecidableEq (Except ε α) := fun x y =>
  match x, y with
  | .ok a, .ok b =>
    if h : a = b then .isTrue (by rw [h]) else .isFalse (by intro hc; cases hc; exact h rfl)
  | .error a, .error b =>
    if h : a = b then .isTrue (by rw [h]) else .isFalse (by intro hc; cases hc; exact h rfl)
  | .ok _, .error _ => .isFalse (by intro hc; cases hc)
  | .error _, .ok _ => .isFalse (by intro hc; cases hc)

/-- `Path.mkdir`: no-op when the target is already a directory; otherwise
`file_in_parents` may raise `NotADirectoryError`; otherwise run
`mkdir -p` (no `check`) and optionally chown the result. -/
def pathMkdir (os : OS) (self : Ppath) (name : String) (passwd : Option PasswdArg)
    (mode : Option ChmodArg) (effectiveIds followSymlinks : Bool) :
    Except PErr (Ppath × List Cmd) :=
  let path := if followSymlinks then os.resolve (joinName self name) else joinName self name
  if os.isDir path then .ok (path, [])
  else
    match fileInParents os path true followSymlinks with
    | .error e => .error e
    | .ok (some _) => .ok (path, [])
    | .ok none =>
      let c : Cmd := { argv := pathSudo os path false wOK effectiveIds followSymlinks
        ++ ["mkdir", "-p"]
        ++ (match mode with
            | some m => if chmodArgTruthy m then ["-m", chmodArgRepr m] else []
            | none => [])
        ++ [pstr path], check := false }
      match runCmd os c with
      | .error e => .error e
      | .ok _ =>
        match passwd with
        | none => .ok (path, [c])
        | some pw =>
          match pathChown os path (some pw) effectiveIds true followSymlinks false with
          | .error e => .error e
          | .ok (_, cs) => .ok (path, c :: cs)

/-- `Path.touch`: no-op when the target is already a file or a directory;
otherwise the parent's `file_in_parents` may raise `NotADirectoryError`;
otherwise make missing parent directories, run `touch` with `check=True`,
chmod the result, and optionally chown it. -/
def pathTouch (os : OS) (self : Ppath) (name : String) (passwd : Option PasswdArg)
    (mode : Option ChmodArg) (effectiveIds followSymlinks : Bool) :
    Except PErr (Ppath × List Cmd) :=
  let path := if followSymlinks then os.resolve (joinName self name) else joinName self name
  if os.isFile path ∨ os.isDir path then .ok (path, [])
  else
    match fileInParents os path.dropLast true followSymlinks with
    | .error e => .error e
    | .ok (some _) => .ok (path, [])
    | .ok none =>
      let mk : Except PErr (List Cmd) :=
        if ¬ pathExists os path.dropLast then
          match pathMkdir os path.dropLast "" none mode effectiveIds followSymlinks with
          | .error e => .error e
          | .ok (_, cs) => .ok cs
        else .ok []
      match mk with
      | .error e => .error e
      | .ok cs0 =>
        let c : Cmd := { argv := pathSudo os path false wOK effectiveIds followSymlinks
          ++ ["touch", pstr path], check := true }
        match runCmd os c with
        | .error e => .error e
        | .ok _ =>
          match pathChmod os path mode effectiveIds true followSymlinks false with
          | .error e => .error e
          | .ok (_, cs1) =>
            match passwd with
            | none => .ok (path, cs0 ++ [c] ++ cs1)
            | some pw =>
              match pathChown os path (some pw) effectiveIds true followSymlinks false with
              | .error e => .error e
              | .ok (_, cs2) => .ok (path, cs0 ++ [c] ++ cs1 ++ cs2)

/-- `Path.rm`: raises `FileNotFoundError` when `missing_ok` is off and the
path does not exist; when the (joined) target exists, runs `rm` (with `-rf`
when `self.is_dir()`) with no `check`; otherwise does nothing. -/
def pathRm (os : OS) (self : Ppath) (extra : List String)
    (effectiveIds followSymlinks missingOk : Bool) : Except PErr (List Cmd) :=
  if ¬ missingOk ∧ ¬ pathExists os self then .error .fileNotFoundError
  else
    let path := self ++ extra
    if pathExists os path then
      let c : Cmd := { argv := pathSudo os path true wOK effectiveIds followSymlinks ++ ["rm"]
        ++ (if os.isDir self then ["-rf"] else [])
        ++ [pstr (if followSymlinks then os.resolve path else path)], check := false }
      match runCmd os c with
      | .error e => .error e
      | .ok _ => .ok [c]
    else .ok []

/-- Number of external commands an operation submitted (zero when it
raised before reaching the execution boundary). -/
def issuedCount (r : Except PErr (Ppath × List Cmd)) : Nat :=
  match r with
  | .ok (_, cs) => cs.length
  | .error _ => 0

/-- Modelled from the spec: the effect of the external `mkdir -p` coreutil
(not part of `src/`; the engine shells out to it) on the set of existing
directories — it "creates a directory and all missing parents". -/
def mkdirPDirs (dirs : List Ppath) (p : Ppath) : List Ppath :=
  dirs ++ (List.range (p.length + 1)).map (fun k => p.take k)

/-- A non-superuser snapshot whose filesystem view is empty and where no
escalation mechanism is installed. -/
def osBase : OS where
  getuid := 1000
  geteuid := 1000
  whichSudo := ""
  osExists := fun _ => false
  isSymlink := fun _ => false
  isDir := fun _ => false
  isFile := fun _ => false
  osAccess := fun _ _ _ _ => false
  resolve := id
  stMode := fun _ => 0
  stUid := fun _ => 0
  stGid := fun _ => 0
  runExit := fun _ => 0
  runOut := fun _ => ""
  runErr := fun _ => ""
  loginUser := "user"
  loginGroup := "user"

/-- Snapshot for a superuser caller (`uid = euid = 0`) with the escalation
mechanism installed at `/usr/bin/sudo`. -/
def osRoot : OS :=
  { osBase with getuid := 0, geteuid := 0, whichSudo := "/usr/bin/sudo" }

/-- Snapshot for the ancestor-walk scenario of the spec: `/a/b` exists and
is writable by the (non-superuser) caller, `/a/b/c` and `/a/b/c/d` do not
exist, sudo is installed. -/
def osWalk : OS :=
  { osBase with
    whichSudo := "/usr/bin/sudo",
    osExists := fun p => p == ([] : Ppath) || p == ["a"] || p == ["a", "b"],
    isDir := fun p => p == ([] : Ppath) || p == ["a"] || p == ["a", "b"],
    osAccess := fun p _ _ _ => p == ["a", "b"] }

/-- Snapshot where `/d` exists as a directory owned by another identity
with no access for the (non-superuser) caller, and sudo is installed. -/
def osDenied : OS :=
  { osBase with
    whichSudo := "/usr/bin/sudo",
    osExists := fun p => p == ([] : Ppath) || p == ["d"],
    isDir := fun p => p == ([] : Ppath) || p == ["d"],
    stUid := fun _ => 0 }

/-- Snapshot holding one dangling symbolic link `/lnk`: the link itself
exists (`is_symlink`) but the OS existence check (which follows the link)
fails, and `os.access` denies every probe on the absent target. -/
def osDangling : OS :=
  { osBase with isSymlink := fun p => p == ["lnk"] }

/-- Snapshot holding one regular file `/f` whose mode bits are already
`0o644` (`st_mode = 0o100644`) and owned by the caller, and one spot `/d`
where nothing exists yet; every spawned command exits with code 1. -/
def osFail : OS :=
  { osBase with
    osExists := fun p => p == ([] : Ppath) || p == ["f"],
    isFile := fun p => p == ["f"],
    isDir := fun p => p == ([] : Ppath),
    osAccess := fun p _ _ _ => p == ([] : Ppath) || p == ["f"],
    stMode := fun p => if p == ["f"] then 0o100644 else 0,
    stUid := fun _ => 1000,
    stGid := fun _ => 1000,
    runExit := fun _ => 1,
    runErr := fun _ => "boom" }

/-- Snapshot holding one regular file `/f` with mode bits `0o644` owned by
the caller, commands succeeding. -/
def osFile : OS :=
  { osBase with
    osExists := fun p => p == ([] : Ppath) || p == ["f"],
    isFile := fun p => p == ["f"],
    isDir := fun p => p == ([] : Ppath),
    osAccess := fun p _ _ _ => p == ([] : Ppath) || p == ["f"],
    stMode := fun p => if p == ["f"] then 0o100644 else 0,
    stUid := fun _ => 1000,
    stGid := fun _ => 1000 }

/-! ### Shared lemmas about the access probe and the sudo walk -/

lemma pathAccess_of_not_exists {os : OS} {p : Ppath} {m : Nat} {e f : Bool}
    (h : pathExists os p = false) : pathAccess os p m e f = none := by
  simp [pathAccess, h]

lemma pathExists_of_access_denied {os : OS} {p : Ppath} {m : Nat} {e f : Bool}
    (h : pathAccess os p m e f = some false) : pathExists os p = true := by
  by_cases hx : pathExists os p = true
  · exact hx
  · simp only [Bool.not_eq_true] at hx
    simp [pathAccess, hx] at h

lemma sudoGo_denied {os : OS} {force : Bool} {m : Nat} {e f : Bool} {fuel : Nat} {p : Ppath}
    (h : pathAccess os p m e f = some false) :
    sudoGo os force m e f (fuel + 1) p = os.whichSudo := by
  have hx := pathExists_of_access_denied h
  simp [sudoGo, h, hx]

lemma sudoGo_missing {os : OS} {force : Bool} {m : Nat} {e : Bool} {fuel : Nat} {p : Ppath}
    (h : pathExists os p = false) (hq : pstr p.dropLast ≠ "/") :
    sudoGo os force m e false (fuel + 1) p = sudoGo os force m e false fuel p.dropLast := by
  simp [sudoGo, pathAccess_of_not_exists h, h, hq]

lemma pathSudo_run {os : OS} {p : Ppath} {force : Bool} {m : Nat} {e f : Bool}
    (hw : os.whichSudo ≠ "") (hu : (if e then os.geteuid else os.getuid) ≠ 0) :
    pathSudo os p force m e f
      = (if sudoGo os force m e f (p.length + 1) p ≠ ""
         then [sudoGo os force m e f (p.length + 1) p] else []) := by
  simp [pathSudo, hw, hu]

lemma pstr_nil : pstr ([] : Ppath) = "/" := by decide

lemma ne_nil_of_pstr_ne_root {q : Ppath} (h : pstr q ≠ "/") : q ≠ [] := by
  intro hq
  rw [hq] at h
  exact h pstr_nil

lemma joinName_empty (p : Ppath) : joinName p "" = p := by
  simp [joinName, splitSlashGo]

/-! ### Shared lemmas about the file_in_parents walk -/

lemma fipGo_file {os : OS} {exc f : Bool} {fuel : Nat} {p : Ppath} (h : os.isFile p = true) :
    fipGo os exc f (fuel + 1) p
      = if exc then .error .notADirectoryError else .ok (some p) := by
  simp [fipGo, h]

lemma fipGo_step {os : OS} {exc : Bool} {fuel : Nat} {p : Ppath}
    (h1 : os.isFile p = false) (h2 : os.isDir p = false) (h3 : p.dropLast ≠ []) :
    fipGo os exc false (fuel + 1) p = fipGo os exc false fuel p.dropLast := by
  simp [fipGo, h1, h2, h3]

lemma fipGo_blocked (os : OS) (anc : Ppath) (hanc : os.isFile anc = true) :
    ∀ rest : Ppath, rest ≠ [] → anc ≠ [] →
      (∀ j, 1 ≤ j → j ≤ rest.length → os.isFile (anc ++ rest.take j) = false
        ∧ os.isDir (anc ++ rest.take j) = false) →
      ∀ fuel, rest.length + 1 ≤ fuel →
        fipGo os true false fuel (anc ++ rest) = .error .notADirectoryError := by
  intro rest
  induction rest using List.reverseRecOn with
  | nil => intro h; exact absurd rfl h
  | append_singleton rs r ih =>
    intro _ hanc0 hmid fuel hfuel
    obtain ⟨g, rfl⟩ : ∃ g, fuel = g + 1 := ⟨fuel - 1, by simp at hfuel; omega⟩
    have hfull := hmid ((rs ++ [r]).length) (by simp) (le_refl _)
    rw [List.take_length] at hfull
    have hdl : (anc ++ (rs ++ [r])).dropLast = anc ++ rs := by
      rw [← List.append_assoc]
      exact List.dropLast_concat
    have hne : anc ++ rs ≠ [] := by
      intro hc
      exact hanc0 (List.append_eq_nil.mp hc).1
    rw [fipGo_step hfull.1 hfull.2 (by rw [hdl]; exact hne), hdl]
    rcases List.eq_nil_or_concat rs with hrs | ⟨ts, t, rfl⟩
    · subst hrs
      simp only [List.append_nil]
      obtain ⟨g2, rfl⟩ : ∃ g2, g = g2 + 1 := ⟨g - 1, by simp at hfuel; omega⟩
      rw [fipGo_file hanc]
      simp
    · exact ih (by simp) hanc0
        (fun j h1 h2 => by
          have := hmid j h1 (by simp at h2 ⊢; omega)
          rwa [List.take_append_of_le_length (by simpa using h2)] at this)
        g (by simp at hfuel ⊢; omega)

/-! ### Claim theorems -/

/-- C1 counterexample: with the escalation mechanism installed and the
caller already the superuser (`uid = euid = 0`), `Path.sudo` skips the
ancestor walk but still returns the mechanism's path — a NON-empty prefix —
contradicting the claim that a superuser always gets an empty prefix. -/
theorem sudo_superuser_counterexample :
    osRoot.getuid = 0 ∧ osRoot.geteuid = 0 ∧ osRoot.whichSudo = "/usr/bin/sudo"
      ∧ pathSudo osRoot ["etc"] false wOK false false = ["/usr/bin/sudo"]
      ∧ pathSudo osRoot ["etc"] true wOK true true = ["/usr/bin/sudo"] := by
  decide

/-- C1 (amended): when the calling identity is already the superuser (uid 0,
or euid 0 when effective ids are selected), `Path.sudo` skips the ancestor
walk and returns exactly the `which` lookup result as the prefix: empty if
and only if no escalation mechanism is installed, regardless of the path,
the mode, the force flag, and symlink following. -/
theorem sudo_superuser_returns_which (os : OS) (p : Ppath) (force : Bool) (osMode : Nat)
    (effectiveIds followSymlinks : Bool)
    (h : (if effectiveIds then os.geteuid else os.getuid) = 0) :
    pathSudo os p force osMode effectiveIds followSymlinks
      = if os.whichSudo ≠ "" then [os.whichSudo] else [] := by
  simp only [pathSudo, h]
  simp

theorem sudo_superuser_returns_which_witness :
    pathSudo osRoot ["etc"] true wOK true false = ["/usr/bin/sudo"] := by
  rw [sudo_superuser_returns_which osRoot ["etc"] true wOK true false (by decide)]
  decide

/-- C2: (a) with no escalation mechanism installed (`which` returns empty),
`Path.sudo` returns the empty prefix for every path, mode, force flag and
identity selection; (b) for a non-superuser caller, a path that exists but
is denied yields the mechanism's path as a non-empty prefix; (c) likewise
for a path that does not exist under a parent directory that exists and is
denied (the "directory owned by a different identity with no write access"
scenario). -/
theorem sudo_escalation_fallback :
    (∀ (os : OS) (p : Ppath) (force : Bool) (osMode : Nat) (e f : Bool),
        os.whichSudo = "" → pathSudo os p force osMode e f = [])
  ∧ (∀ (os : OS) (p : Ppath) (force : Bool) (osMode : Nat) (e f : Bool),
        os.whichSudo ≠ "" → (if e then os.geteuid else os.getuid) ≠ 0 →
        pathAccess os p osMode e f = some false →
        pathSudo os p force osMode e f = [os.whichSudo])
  ∧ (∀ (os : OS) (p : Ppath) (force : Bool) (osMode : Nat) (e : Bool),
        os.whichSudo ≠ "" → (if e then os.geteuid else os.getuid) ≠ 0 →
        pathExists os p = false → pstr p.dropLast ≠ "/" →
        pathAccess os p.dropLast osMode e false = some false →
        pathSudo os p force osMode e false = [os.whichSudo]) := by
  refine ⟨?_, ?_, ?_⟩
  · intro os p force osMode e f hw
    simp [pathSudo, hw]
  · intro os p force osMode e f hw hu hd
    rw [pathSudo_run hw hu]
    obtain ⟨k, hk⟩ : ∃ k, p.length = k := ⟨p.length, rfl⟩
    rw [hk, sudoGo_denied hd]
    simp [hw]
  · intro os p force osMode e hw hu hnx hq hd
    rw [pathSudo_run hw hu, sudoGo_missing hnx hq]
    have hlen : 1 ≤ p.length := by
      have : p ≠ [] := by
        intro hc
        subst hc
        exact hq pstr_nil
      cases p with
      | nil => exact absurd rfl this
      | cons a t => simp
    obtain ⟨k, hk⟩ : ∃ k, p.length = k + 1 := ⟨p.length - 1, by omega⟩
    rw [hk, sudoGo_denied hd]
    simp [hw]

theorem sudo_escalation_fallback_witness :
    pathSudo osBase ["x"] false wOK false false = []
  ∧ pathSudo osDenied ["d"] false wOK false false = ["/usr/bin/sudo"]
  ∧ pathSudo osDenied ["d", "x"] false wOK false false = ["/usr/bin/sudo"] :=
  ⟨sudo_escalation_fallback.1 osBase ["x"] false wOK false false (by decide),
   sudo_escalation_fallback.2.1 osDenied ["d"] false wOK false false
     (by decide) (by decide) (by decide),
   sudo_escalation_fallback.2.2 osDenied ["d", "x"] false wOK false
     (by decide) (by decide) (by decide) (by decide) (by decide)⟩

/-- C3: a candidate that does not exist moves the walk to its parent
(whenever the parent is not the filesystem root); and in the concrete
scenario `/a/b/c/d` with `/a/b` existing and writable while `/a/b/c` and
`/a/b/c/d` do not exist, `Path.sudo` returns the empty prefix for a
non-superuser caller without force. -/
theorem sudo_ancestor_walk :
    (∀ (os : OS) (force : Bool) (osMode : Nat) (e : Bool) (fuel : Nat) (p : Ppath),
        pathExists os p = false → pstr p.dropLast ≠ "/" →
        sudoGo os force osMode e false (fuel + 1) p
          = sudoGo os force osMode e false fuel p.dropLast)
  ∧ pathSudo osWalk ["a", "b", "c", "d"] false wOK false false = [] := by
  constructor
  · intro os force osMode e fuel p h hq
    exact sudoGo_missing h hq
  · decide

theorem sudo_ancestor_walk_witness :
    sudoGo osWalk false wOK false false 4 ["a", "b", "c", "d"]
      = sudoGo osWalk false wOK false false 3 ["a", "b", "c"] :=
  sudo_ancestor_walk.1 osWalk false wOK false 3 ["a", "b", "c", "d"] (by decide) (by decide)

/-- C6: for every path that does not exist (in the library's sense, which
counts broken symlinks as existing), `Path.access` returns the distinct
not-found result `none`, never the denied result `some false`. -/
theorem access_notfound_distinct (os : OS) (p : Ppath) (osMode : Nat) (e f : Bool)
    (h : pathExists os p = false) :
    pathAccess os p osMode e f = none ∧ pathAccess os p osMode e f ≠ some false := by
  refine ⟨pathAccess_of_not_exists h, ?_⟩
  rw [pathAccess_of_not_exists h]
  intro hc
  cases hc

theorem access_notfound_distinct_witness :
    pathAccess osBase ["x"] wOK false false = none
  ∧ pathAccess osBase ["x"] wOK false false ≠ some false :=
  access_notfound_distinct osBase ["x"] wOK false false (by decide)

/-- C7 counterexample: on a dangling symbolic link (`is_symlink` true, OS
existence check false), `Path.access` with `follow_symlinks=True` returns
the denied verdict `some false` — not the claimed not-found result `none` —
because the existence guard uses `Path.exists`, which ignores the
`follow_symlinks` argument and counts the link itself. -/
theorem access_dangling_counterexample :
    osDangling.isSymlink ["lnk"] = true
  ∧ osDangling.osExists ["lnk"] = false
  ∧ pathAccess osDangling ["lnk"] wOK false true = some false
  ∧ pathAccess osDangling ["lnk"] wOK false true ≠ none := by
  decide

/-- C7 (amended): a dangling symbolic link is treated as existing for BOTH
values of `follow_symlinks`: with `follow_symlinks=False` the probe returns
the allowed/denied verdict of `os.access` on the link itself, and with
`follow_symlinks=True` — where the POSIX `os.access` syscall reports false
for the absent target — it returns the denied verdict `some false` rather
than the not-found result. -/
theorem access_dangling_amended (os : OS) (p : Ppath) (osMode : Nat) (e : Bool)
    (hlink : os.isSymlink p = true) (hposix : os.osAccess p osMode e true = false) :
    pathAccess os p osMode e false = some (os.osAccess p osMode e false)
  ∧ pathAccess os p osMode e true = some false := by
  have hex : pathExists os p = true := by simp [pathExists, hlink]
  constructor
  · simp [pathAccess, hex]
  · simp [pathAccess, hex, hposix]

theorem access_dangling_amended_witness :
    pathAccess osDangling ["lnk"] wOK false false
        = some (osDangling.osAccess ["lnk"] wOK false false)
  ∧ pathAccess osDangling ["lnk"] wOK false true = some false :=
  access_dangling_amended osDangling ["lnk"] wOK false (by decide) (by decide)

/-- C9: a symbolic link whose target is absent still satisfies
`Path.exists` (the override returns true for any symlink), diverging from
the underlying OS existence check, which reports false for it. -/
theorem exists_broken_symlink (os : OS) (p : Ppath)
    (hlink : os.isSymlink p = true) (hos : os.osExists p = false) :
    pathExists os p = true ∧ os.osExists p = false := by
  refine ⟨?_, hos⟩
  simp [pathExists, hlink]

theorem exists_broken_symlink_witness :
    pathExists osDangling ["lnk"] = true ∧ osDangling.osExists ["lnk"] = false :=
  exists_broken_symlink osDangling ["lnk"] (by decide) (by decide)

/-- C10: for an existing path, `Path.chmod` with `mode=None` issues a chmod
command whose mode token is the default `"755"` when the path is a
directory and `"644"` otherwise. -/
theorem chmod_default_mode (os : OS) (p : Ppath) (e f r : Bool)
    (h : pathExists os p = true) :
    pathChmod os p none e true f r
      = .ok (p, [⟨pathSudo os p true wOK e f ++ ["chmod"]
          ++ (if r ∧ os.isDir p then ["-R"] else [])
          ++ [if os.isDir p then "755" else "644"]
          ++ [pstr (if f then os.resolve p else p)], false⟩]) := by
  simp [pathChmod, h, chmodTok, runCmd]

theorem chmod_default_mode_witness :
    pathChmod osFile ["f"] none false true false false
      = .ok (["f"], [⟨["chmod", "644", "/f"], false⟩]) := by
  rw [chmod_default_mode osFile ["f"] false false false (by decide)]
  decide

/-- C4 counterexample: `/f` exists with permission bits already `0o644`
(`st_mode % 0o1000 = 0o644`), yet `Path.chmod` with the matching request
`644` still issues one external chmod command — the engine performs no
change detection for chmod, so a repeated identical invocation does not
issue zero commands. -/
theorem mutation_idempotence_counterexample :
    pathExists osFile ["f"] = true
  ∧ osFile.stMode ["f"] % 512 = 420
  ∧ chmodTok (osFile.isDir ["f"]) (some (.num 644)) = "644"
  ∧ issuedCount (pathChmod osFile ["f"] (some (.num 644)) false true false false) = 1 := by
  decide

/-- C4 (amended): `Path.mkdir` on a target that is already a directory and
`Path.touch` on a target that is already a regular file return the path and
issue zero external commands; but `Path.chmod` and `Path.chown` have no
change detection — every invocation on an existing path issues exactly one
external command, whatever the current mode/owner bits are. -/
theorem mutation_idempotence_amended :
    (∀ (os : OS) (self : Ppath) (name : String) (passwd : Option PasswdArg)
        (mode : Option ChmodArg) (e : Bool),
        os.isDir (joinName self name) = true →
        pathMkdir os self name passwd mode e false = .ok (joinName self name, []))
  ∧ (∀ (os : OS) (self : Ppath) (name : String) (passwd : Option PasswdArg)
        (mode : Option ChmodArg) (e : Bool),
        os.isFile (joinName self name) = true →
        pathTouch os self name passwd mode e false = .ok (joinName self name, []))
  ∧ (∀ (os : OS) (p : Ppath) (mode : Option ChmodArg) (e f r : Bool),
        pathExists os p = true →
        issuedCount (pathChmod os p mode e true f r) = 1)
  ∧ (∀ (os : OS) (p : Ppath) (e f r : Bool),
        pathExists os p = true → (∀ a, os.runExit a = 0) →
        issuedCount (pathChown os p none e true f r) = 1) := by
  refine ⟨?_, ?_, ?_, ?_⟩
  · intro os self name passwd mode e h
    simp [pathMkdir, h]
  · intro os self name passwd mode e h
    simp [pathTouch, h]
  · intro os p mode e f r h
    simp [pathChmod, h, runCmd, issuedCount]
  · intro os p e f r h hrun
    simp [pathChown, h, runCmd, hrun, issuedCount]

theorem mutation_idempotence_amended_witness :
    pathMkdir osFile [] "" none none false false = .ok ([], [])
  ∧ pathTouch osFile [] "f" none none false false = .ok (["f"], [])
  ∧ issuedCount (pathChmod osFile ["f"] none false true false false) = 1
  ∧ issuedCount (pathChown osFile ["f"] none false true false false) = 1 :=
  ⟨by
      have h := mutation_idempotence_amended.1 osFile [] "" none none false (by decide)
      rwa [joinName_empty] at h,
    by
      have h := mutation_idempotence_amended.2.1 osFile [] "f" none none false (by decide)
      exact h,
    mutation_idempotence_amended.2.2.1 osFile ["f"] none false false false (by decide),
    mutation_idempotence_amended.2.2.2 osFile ["f"] false false false (by decide)
      (fun a => by rfl)⟩

/-- C5 counterexample: on a snapshot where every spawned command exits with
code 1, `Path.mkdir`, `Path.chmod` and `Path.rm` all return success with
their command submitted without `check` — the non-zero exit is silently
ignored instead of being surfaced as an error. -/
theorem run_failure_counterexample :
    osFail.runExit ["mkdir", "-p", "/d"] = 1
  ∧ pathMkdir osFail [] "d" none none false false
      = .ok (["d"], [⟨["mkdir", "-p", "/d"], false⟩])
  ∧ osFail.runExit ["chmod", "644", "/f"] = 1
  ∧ pathChmod osFail ["f"] none false true false false
      = .ok (["f"], [⟨["chmod", "644", "/f"], false⟩])
  ∧ osFail.runExit ["rm", "/f"] = 1
  ∧ pathRm osFail ["f"] [] false false true = .ok [⟨["rm", "/f"], false⟩] := by
  decide

/-- C5 (amended): `Path.mkdir`, `Path.chmod` and `Path.rm` submit their
external command without `check`, so they return success regardless of the
command's exit code; only the checked operations surface failures —
`Path.chown` raises `CalledProcessError` carrying the exit code and the
captured stdout/stderr whenever its command exits non-zero. -/
theorem run_failure_amended :
    (∀ (os : OS) (p : Ppath) (mode : Option ChmodArg) (e f r : Bool),
        pathExists os p = true →
        ∃ c, pathChmod os p mode e true f r = .ok (p, [c]) ∧ c.check = false)
  ∧ (∀ (os : OS) (self : Ppath) (extra : List String) (e f : Bool),
        pathExists os (self ++ extra) = true →
        ∃ c, pathRm os self extra e f true = .ok [c] ∧ c.check = false)
  ∧ (∀ (os : OS) (self : Ppath) (name : String) (mode : Option ChmodArg) (e f : Bool),
        os.isDir (if f then os.resolve (joinName self name) else joinName self name) = false →
        fileInParents os (if f then os.resolve (joinName self name) else joinName self name)
          true f = .ok none →
        ∃ c, pathMkdir os self name none mode e f
          = .ok ((if f then os.resolve (joinName self name) else joinName self name), [c])
          ∧ c.check = false)
  ∧ (∀ (os : OS) (p : Ppath) (e f r : Bool),
        pathExists os p = true →
        os.runExit (chownArgv os p none e f r) ≠ 0 →
        pathChown os p none e true f r
          = .error (.calledProcessError (os.runExit (chownArgv os p none e f r))
              (os.runOut (chownArgv os p none e f r))
              (os.runErr (chownArgv os p none e f r)))) := by
  refine ⟨?_, ?_, ?_, ?_⟩
  · intro os p mode e f r h
    refine ⟨⟨pathSudo os p true wOK e f ++ ["chmod"]
      ++ (if r ∧ os.isDir p then ["-R"] else [])
      ++ [chmodTok (os.isDir p) mode]
      ++ [pstr (if f then os.resolve p else p)], false⟩, ?_, rfl⟩
    simp [pathChmod, h, runCmd]
  · intro os self extra e f h
    refine ⟨⟨pathSudo os (self ++ extra) true wOK e f ++ ["rm"]
      ++ (if os.isDir self then ["-rf"] else [])
      ++ [pstr (if f then os.resolve (self ++ extra) else self ++ extra)], false⟩, ?_, rfl⟩
    simp [pathRm, h, runCmd]
  · intro os self name mode e f hdir hfip
    refine ⟨⟨pathSudo os (if f then os.resolve (joinName self name) else joinName self name)
        false wOK e f ++ ["mkdir", "-p"]
      ++ (match mode with
          | some m => if chmodArgTruthy m then ["-m", chmodArgRepr m] else []
          | none => [])
      ++ [pstr (if f then os.resolve (joinName self name) else joinName self name)],
      false⟩, ?_, rfl⟩
    simp [pathMkdir, hdir, hfip, runCmd]
  · intro os p e f r h hexit
    simp [chownArgv] at hexit
    simp [pathChown, h, runCmd, chownArgv, hexit]

theorem run_failure_amended_witness :
    (∃ c, pathChmod osFail ["f"] none false true false false = .ok (["f"], [c])
        ∧ c.check = false)
  ∧ (∃ c, pathRm osFail ["f"] [] false false true = .ok [c] ∧ c.check = false)
  ∧ (∃ c, pathMkdir osFail [] "d" none none false false = .ok (["d"], [c])
        ∧ c.check = false)
  ∧ pathChown osFail ["f"] none false true false false
      = .error (.calledProcessError 1 "" "boom") :=
  ⟨run_failure_amended.1 osFail ["f"] none false false false (by decide),
    run_failure_amended.2.1 osFail ["f"] [] false false (by decide),
    by
      have h := run_failure_amended.2.2.1 osFail [] "d" none false false
        (by decide) (by decide)
      simpa using h,
    by
      have h := run_failure_amended.2.2.2 osFail ["f"] false false false
        (by decide) (by decide)
      simpa using h⟩

/-- C8: `Path.mkdir` (i) is a no-op returning the path when the target is
already a directory; (ii) otherwise, when no ancestor file blocks it, it
issues exactly one `mkdir -p` command for the target — whose external
semantics (modelled from the spec as `mkdirPDirs`) creates the directory
and every missing parent; (iii) and when an ancestor component is an
existing regular file (everything strictly below it neither file nor
directory), it fails with `NotADirectoryError` without issuing anything. -/
theorem mkdir_semantics :
    (∀ (os : OS) (self : Ppath) (name : String) (passwd : Option PasswdArg)
        (mode : Option ChmodArg) (e : Bool),
        os.isDir (joinName self name) = true →
        pathMkdir os self name passwd mode e false = .ok (joinName self name, []))
  ∧ (∀ (os : OS) (self : Ppath) (name : String) (e : Bool),
        os.isDir (joinName self name) = false →
        fileInParents os (joinName self name) true false = .ok none →
        pathMkdir os self name none none e false
          = .ok (joinName self name,
              [⟨pathSudo os (joinName self name) false wOK e false
                 ++ ["mkdir", "-p", pstr (joinName self name)], false⟩])
        ∧ ∀ (dirs : List Ppath) (k : Nat), k ≤ (joinName self name).length →
            (joinName self name).take k ∈ mkdirPDirs dirs (joinName self name))
  ∧ (∀ (os : OS) (anc rest : Ppath) (passwd : Option PasswdArg) (mode : Option ChmodArg)
        (e : Bool),
        os.isFile anc = true → anc ≠ [] → rest ≠ [] →
        (∀ j, 1 ≤ j → j ≤ rest.length → os.isFile (anc ++ rest.take j) = false
          ∧ os.isDir (anc ++ rest.take j) = false) →
        pathMkdir os (anc ++ rest) "" passwd mode e false = .error .notADirectoryError) := by
  refine ⟨?_, ?_, ?_⟩
  · intro os self name passwd mode e h
    simp [pathMkdir, h]
  · intro os self name e hdir hfip
    constructor
    · simp [pathMkdir, hdir, hfip, runCmd]
    · intro dirs k hk
      unfold mkdirPDirs
      refine List.mem_append_right _ ?_
      exact List.mem_map.mpr ⟨k, List.mem_range.mpr (by omega), rfl⟩
  · intro os anc rest passwd mode e hanc hancne hrestne hmid
    have hrl : 1 ≤ rest.length := by
      cases rest with
      | nil => exact absurd rfl hrestne
      | cons a t => simp
    have hfd := hmid rest.length hrl (le_refl _)
    rw [List.take_length] at hfd
    have hfip : fileInParents os (anc ++ rest) true false = .error .notADirectoryError := by
      have hb := fipGo_blocked os anc hanc rest hrestne hancne hmid
        ((anc ++ rest).length + 1) (by simp only [List.length_append]; omega)
      simpa [fileInParents] using hb
    simp [pathMkdir, joinName_empty, hfd.2, hfip]

theorem mkdir_semantics_witness :
    pathMkdir osWalk ["a"] "" none none false false = .ok (["a"], [])
  ∧ pathMkdir osFail [] "d" none none false false
      = .ok (joinName [] "d", [⟨pathSudo osFail (joinName [] "d") false wOK false false
          ++ ["mkdir", "-p", pstr (joinName [] "d")], false⟩])
  ∧ (joinName [] "d").take 1 ∈ mkdirPDirs [] (joinName [] "d")
  ∧ pathMkdir osFile (["f"] ++ ["g"]) "" none none false false
      = .error .notADirectoryError := by
  refine ⟨?_, ?_, ?_, ?_⟩
  · have h := mkdir_semantics.1 osWalk ["a"] "" none none false (by decide)
    rwa [joinName_empty] at h
  · exact (mkdir_semantics.2.1 osFail [] "d" false (by decide) (by decide)).1
  · exact (mkdir_semantics.2.1 osFail [] "d" false (by decide) (by decide)).2 [] 1 (by decide)
  · refine mkdir_semantics.2.2 osFile ["f"] ["g"] none none false (by decide) (by decide)
      (by decide) ?_
    intro j h1 h2
    have hj : j = 1 := by simp at h2; omega
    subst hj
    exact ⟨by decide, by decide⟩
